import Mathlib

/-
Shallow embedding of the remote job lifecycle adapter of psij-python
(src/psij/executors/remote_job_executor.py) and its two backend drivers
(src/psij/executors/nersc/nersc.py, src/psij/executors/slurmrestd/slurmrestd.py).

Network transports are modelled by passing each driver the decoded backend
reply as a value: an HTTP-level failure (requests raise_for_status, or an
ApiException from the generated client) is an Except.error input, and a
successful reply is the relevant record fields. Python exceptions are
Except.error with the message the code raises; mutation of the Job object is
explicit state passing, and functions that may call a driver also return the
list of native ids the driver was invoked on, so that zero-network-call
properties are expressible.
-/

namespace Psij

/-- Canonical job state enum of psij (JobState). -/
inductive JobState where
  | NEW
  | QUEUED
  | ACTIVE
  | COMPLETED
  | CANCELED
  | FAILED
deriving DecidableEq, Repr

/-- The terminal (final) canonical states: COMPLETED, CANCELED, FAILED. -/
def JobState.final : JobState → Bool
  | JobState.COMPLETED => true
  | JobState.CANCELED => true
  | JobState.FAILED => true
  | _ => false

/-- psij JobStatus, reduced to the field the adapter code reads: the state. -/
structure JobStatus where
  state : JobState
deriving DecidableEq, Repr

/-- The Job handle as mutated by the adapter: canonical state, the private
native id field (None before submission or attach), and whether a job
specification is present. -/
structure Job where
  state : JobState
  native_id : Option String
  hasSpec : Bool
deriving DecidableEq, Repr

/-- Python str.upper on the status tokens (character-wise upper-casing; the
tokens involved are ASCII). -/
def pyUpper (s : String) : String := String.mk (s.data.map Char.toUpper)

/-- Modelled from the spec: JobExecutor check_job, called by submit, lives in
psij core which is not under src/. Per the spec, submit validates that the
handle has a specification and the adapter does not validate its contents
beyond requiring it to be present. -/
def check_job (job : Job) : Except String Unit :=
  if job.hasSpec then Except.ok () else Except.error "Missing job specification"

/-- Modelled from the spec: JobExecutor set_job_status delegates to psij core
Job status update code that is not under src/. Per the spec, terminal states
are absorbing (a handle never transitions out of a terminal state) and the
adapter mutates only the state field; otherwise the reported state is
applied. -/
def set_job_status (job : Job) (status : JobStatus) : Job :=
  if job.state.final then job else { job with state := status.state }

namespace RemoteJobExecutor

/-- RemoteJobExecutor.submit: runs check_job, then the abstract driver
submit_job (passed here as its outcome), stores the returned native id on the
handle and sets QUEUED; on a driver exception the error is logged and
re-raised with the handle untouched. Returns the call outcome and the handle
after the call. -/
def submit (submit_job : Except String String) (job : Job) :
    Except String Unit × Job :=
  match check_job job with
  | Except.error e => (Except.error e, job)
  | Except.ok _ =>
    match submit_job with
    | Except.error e => (Except.error e, job)
    | Except.ok native_id =>
      (Except.ok (),
        set_job_status { job with native_id := some native_id }
          (JobStatus.mk JobState.QUEUED))

/-- RemoteJobExecutor.cancel: raises when the handle has a falsy native id
(None or empty), before any driver call; otherwise delegates to the driver
cancel_job and re-raises its exceptions unchanged. The third component
records the native ids the driver cancel operation was invoked on. -/
def cancel (cancel_job : String → Except String Unit) (job : Job) :
    Except String Unit × Job × List String :=
  match job.native_id with
  | none => (Except.error "Cannot cancel a job without a native ID.", job, [])
  | some nid =>
    if nid = "" then
      (Except.error "Cannot cancel a job without a native ID.", job, [])
    else
      (cancel_job nid, job, [nid])

/-- RemoteJobExecutor.attach: raises when the handle is not in NEW state,
before any driver call and before any mutation; otherwise stores the supplied
native id on the handle, then fetches the status once and applies it. A fetch
exception is logged and re-raised, with the native id already written. The
third component records the native ids the driver get_job_status operation
was invoked on. -/
def attach (get_job_status : String → Except String JobStatus) (job : Job)
    (native_id : String) : Except String Unit × Job × List String :=
  if job.state ≠ JobState.NEW then
    (Except.error "Job must be in NEW state to be attached.", job, [])
  else
    let job1 := { job with native_id := some native_id }
    match get_job_status native_id with
    | Except.error e => (Except.error e, job1, [native_id])
    | Except.ok status => (Except.ok (), set_job_status job1 status, [native_id])

/-- RemoteJobExecutor update_job_status: returns immediately when the handle
has a falsy native id; otherwise fetches the status and applies it, catching
any fetch exception and logging a warning instead of raising (the return type
carries no error case because the Python method never raises). The second
component records the native ids the driver get_job_status operation was
invoked on. -/
def update_job_status (get_job_status : String → Except String JobStatus)
    (job : Job) : Job × List String :=
  match job.native_id with
  | none => (job, [])
  | some nid =>
    if nid = "" then (job, [])
    else
      match get_job_status nid with
      | Except.error _ => (job, [nid])
      | Except.ok status => (set_job_status job status, [nid])

end RemoteJobExecutor

namespace NERSCExecutor

/-- NERSCExecutor map_nersc_state_to_psij: dictionary lookup on the
upper-cased token, defaulting to NEW for unknown tokens. -/
def map_nersc_state_to_psij (nersc_state : String) : JobState :=
  let s := pyUpper nersc_state
  if s = "PENDING" then JobState.QUEUED
  else if s = "RUNNING" then JobState.ACTIVE
  else if s = "COMPLETED" then JobState.COMPLETED
  else if s = "CANCELLED" then JobState.CANCELED
  else if s = "FAILED" then JobState.FAILED
  else if s = "TIMEOUT" then JobState.FAILED
  else if s = "PREEMPTED" then JobState.FAILED
  else if s = "NODE_FAIL" then JobState.FAILED
  else if s = "SUSPENDED" then JobState.QUEUED
  else JobState.NEW

/-- The decoded NERSC submission reply: whether raise_for_status passed, and
the jobid field of the JSON body (None when absent; numbers arrive here
already stringified, as the code applies str to the value). -/
structure SubmitResponse where
  httpOk : Bool
  jobid : Option String
deriving DecidableEq, Repr

/-- NERSCExecutor submit_job: raise_for_status on the transport, then read
jobid from the JSON reply and raise when it is falsy (absent or empty);
otherwise return its string form. -/
def submit_job (response : SubmitResponse) : Except String String :=
  if !response.httpOk then Except.error "HTTPError"
  else
    match response.jobid with
    | none => Except.error "Failed to get job ID from NERSC"
    | some nid =>
      if nid = "" then Except.error "Failed to get job ID from NERSC"
      else Except.ok nid

/-- The decoded NERSC status reply: whether raise_for_status passed, and the
status field of the JSON job record (None when absent). -/
structure StatusResponse where
  httpOk : Bool
  status : Option String
deriving DecidableEq, Repr

/-- NERSCExecutor get_job_status: raise_for_status on the transport, then
job_info.get with default UNKNOWN on the status field, mapped through
map_nersc_state_to_psij. -/
def get_job_status (response : StatusResponse) : Except String JobStatus :=
  if !response.httpOk then Except.error "HTTPError"
  else
    let nersc_state := response.status.getD "UNKNOWN"
    Except.ok (JobStatus.mk (map_nersc_state_to_psij nersc_state))

end NERSCExecutor

namespace SlurmRestAPIExecutor

/-- SlurmRestAPIExecutor map_slurm_state_to_psij: dictionary lookup on the
upper-cased token; an unmapped token makes the lookup return None, which is
falsy, so the code raises Invalid job status code. -/
def map_slurm_state_to_psij (slurm_state : String) : Except String JobState :=
  let s := pyUpper slurm_state
  let ret : Option JobState :=
    if s = "PENDING" then some JobState.QUEUED
    else if s = "CONFIGURING" then some JobState.NEW
    else if s = "RUNNING" then some JobState.ACTIVE
    else if s = "COMPLETED" then some JobState.COMPLETED
    else if s = "CANCELLED" then some JobState.CANCELED
    else if s = "FAILED" then some JobState.FAILED
    else if s = "TIMEOUT" then some JobState.FAILED
    else if s = "PREEMPTED" then some JobState.FAILED
    else if s = "NODE_FAIL" then some JobState.FAILED
    else if s = "SUSPENDED" then some JobState.CANCELED
    else none
  match ret with
  | some st => Except.ok st
  | none => Except.error ("Invalid job status code: " ++ slurm_state)

/-- The decoded slurmrestd submission reply: the job_id attribute of the
response object (None when the backend omits it). -/
structure SubmitResponse where
  job_id : Option String
deriving DecidableEq, Repr

/-- Python str applied to an optional value: str None is the string None. -/
def pyStr : Option String → String
  | none => "None"
  | some s => s

/-- SlurmRestAPIExecutor submit_job: an ApiException from the client is
logged and re-raised; a successful reply returns str of response.job_id with
no presence check. -/
def submit_job (api_result : Except String SubmitResponse) :
    Except String String :=
  match api_result with
  | Except.error e => Except.error e
  | Except.ok response => Except.ok (pyStr response.job_id)

/-- The job_state attribute of a slurmrestd job record: absent, a plain
string, or a list of state strings. -/
inductive JobStateField where
  | absent
  | str (s : String)
  | list (l : List String)
deriving DecidableEq, Repr

/-- One job record of a slurmrestd get-job reply. -/
structure SlurmJobInfo where
  job_state : JobStateField
deriving DecidableEq, Repr

/-- The decoded slurmrestd get-job reply: its jobs list. -/
structure GetJobResponse where
  jobs : List SlurmJobInfo
deriving DecidableEq, Repr

/-- The primary slurm state extraction: state or empty string, then the first
element when it is a nonempty list, the string itself when it is a string,
and empty otherwise. -/
def primary_slurm_state : JobStateField → String
  | JobStateField.absent => ""
  | JobStateField.str s => s
  | JobStateField.list [] => ""
  | JobStateField.list (h :: _) => h

/-- SlurmRestAPIExecutor get_job_status: an ApiException is logged and
re-raised; a reply with an empty jobs list raises the not-found exception;
otherwise the first job record state is mapped through
map_slurm_state_to_psij (whose exception also propagates). -/
def get_job_status (native_id : String)
    (api_result : Except String GetJobResponse) : Except String JobStatus :=
  match api_result with
  | Except.error e => Except.error e
  | Except.ok response =>
    match response.jobs with
    | [] => Except.error ("Job with native_id " ++ native_id ++ " not found.")
    | job_info :: _ =>
      match map_slurm_state_to_psij (primary_slurm_state job_info.job_state) with
      | Except.error e => Except.error e
      | Except.ok job_state => Except.ok (JobStatus.mk job_state)

end SlurmRestAPIExecutor

end Psij

namespace Psij

/-- C1: the claim says every transient token in the mapping tables (pending,
held, configuring, suspended) maps to NEW or QUEUED; the slurmrestd table
maps the transient token SUSPENDED to CANCELED, a terminal canonical state
(the NERSC table maps SUSPENDED to QUEUED). -/
theorem c1_slurm_suspended_maps_to_terminal :
    SlurmRestAPIExecutor.map_slurm_state_to_psij "SUSPENDED"
        = Except.ok JobState.CANCELED ∧
    JobState.final JobState.CANCELED = true ∧
    NERSCExecutor.map_nersc_state_to_psij "SUSPENDED" = JobState.QUEUED := by
  refine ⟨rfl, rfl, rfl⟩

/-- C2: the claim says every driver raises a protocol error when the
submission reply omits the job identifier, leaving the handle in NEW. The
slurmrestd driver performs no such check: on a reply whose job_id is absent
it returns the Python string form None of the missing value, and submit then
stores that placeholder id and moves the handle to QUEUED. The NERSC driver
does perform the check. -/
theorem c2_slurm_submit_missing_id_silently_accepted :
    SlurmRestAPIExecutor.submit_job
        (Except.ok (SlurmRestAPIExecutor.SubmitResponse.mk none))
      = Except.ok "None" ∧
    RemoteJobExecutor.submit
        (SlurmRestAPIExecutor.submit_job
          (Except.ok (SlurmRestAPIExecutor.SubmitResponse.mk none)))
        (Job.mk JobState.NEW none true)
      = (Except.ok (), Job.mk JobState.QUEUED (some "None") true) ∧
    NERSCExecutor.submit_job (NERSCExecutor.SubmitResponse.mk true none)
      = Except.error "Failed to get job ID from NERSC" := by
  refine ⟨rfl, rfl, rfl⟩

/-- C3 counterexample: the claim says every driver raises a distinguishable
not-found error when the backend reports no job record; the NERSC driver,
given a successful reply whose payload carries no status field for the job,
returns the default canonical state NEW instead of an error. -/
theorem c3_counterexample :
    NERSCExecutor.get_job_status (NERSCExecutor.StatusResponse.mk true none)
      = Except.ok (JobStatus.mk JobState.NEW) := rfl

/-- C3 amended: the slurmrestd driver raises a distinguishable not-found
error when the reply contains no job records; the NERSC driver raises only
when the HTTP request itself fails, and a successful reply without a status
field for the job yields the default state NEW rather than an error. -/
theorem c3_not_found_behavior :
    (∀ nid : String,
      SlurmRestAPIExecutor.get_job_status nid
          (Except.ok (SlurmRestAPIExecutor.GetJobResponse.mk []))
        = Except.error ("Job with native_id " ++ nid ++ " not found.")) ∧
    (∀ r : NERSCExecutor.StatusResponse, r.httpOk = true → r.status = none →
      NERSCExecutor.get_job_status r = Except.ok (JobStatus.mk JobState.NEW)) ∧
    (∀ r : NERSCExecutor.StatusResponse, r.httpOk = false →
      NERSCExecutor.get_job_status r = Except.error "HTTPError") := by
  refine ⟨fun nid => rfl, fun r h1 h2 => ?_, fun r h1 => ?_⟩
  · cases r with
    | mk httpOk status =>
      cases h1
      cases h2
      rfl
  · cases r with
    | mk httpOk status =>
      cases h1
      rfl

/-- C3 witness: the amended behavior at concrete replies. -/
theorem c3_not_found_behavior_witness :
    SlurmRestAPIExecutor.get_job_status "123"
        (Except.ok (SlurmRestAPIExecutor.GetJobResponse.mk []))
      = Except.error "Job with native_id 123 not found." ∧
    NERSCExecutor.get_job_status (NERSCExecutor.StatusResponse.mk true none)
      = Except.ok (JobStatus.mk JobState.NEW) ∧
    NERSCExecutor.get_job_status (NERSCExecutor.StatusResponse.mk false (some "RUNNING"))
      = Except.error "HTTPError" := by
  refine ⟨?_, ?_, ?_⟩
  · have h := c3_not_found_behavior.1 "123"
    simpa using h
  · exact c3_not_found_behavior.2.1 (NERSCExecutor.StatusResponse.mk true none) rfl rfl
  · exact c3_not_found_behavior.2.2 (NERSCExecutor.StatusResponse.mk false (some "RUNNING")) rfl

/-- A status update applied to a handle in a terminal state leaves the handle
unchanged (terminal states are absorbing in the modelled psij core). -/
theorem set_job_status_of_final (job : Job) (status : JobStatus)
    (h : JobState.final job.state = true) : set_job_status job status = job := by
  simp [set_job_status, h]

/-- C4: a status refresh on a handle whose canonical state is terminal leaves
the canonical state unchanged, whatever status the driver reports for the
native id (the driver outcome is universally quantified). -/
theorem c4_refresh_terminal_absorbing
    (get_job_status : String → Except String JobStatus) (job : Job)
    (h : JobState.final job.state = true) :
    (RemoteJobExecutor.update_job_status get_job_status job).1.state
      = job.state := by
  unfold RemoteJobExecutor.update_job_status
  cases hn : job.native_id with
  | none => rfl
  | some nid =>
    by_cases he : nid = ""
    · simp [he]
    · simp only [if_neg he]
      cases hg : get_job_status nid with
      | error e => rfl
      | ok status => simp [set_job_status_of_final job status h]

/-- C4 witness: a COMPLETED handle stays COMPLETED although the driver
reports QUEUED. -/
theorem c4_refresh_terminal_absorbing_witness :
    (RemoteJobExecutor.update_job_status
        (fun _ => Except.ok (JobStatus.mk JobState.QUEUED))
        (Job.mk JobState.COMPLETED (some "7") true)).1.state
      = JobState.COMPLETED :=
  c4_refresh_terminal_absorbing (fun _ => Except.ok (JobStatus.mk JobState.QUEUED))
    (Job.mk JobState.COMPLETED (some "7") true) rfl

/-- C5: on a NEW handle with a specification and no native id, a submit whose
driver call returns a (non-empty) native id stores exactly that id and moves
the handle to QUEUED; a submit whose driver call raises leaves the handle in
NEW with no native id and returns the same error to the caller. -/
theorem c5_submit_transitions (submit_job : Except String String) (job : Job)
    (hnew : job.state = JobState.NEW) (hspec : job.hasSpec = true)
    (hnid : job.native_id = none) :
    (∀ nid, submit_job = Except.ok nid → nid ≠ "" →
      RemoteJobExecutor.submit submit_job job
        = (Except.ok (), Job.mk JobState.QUEUED (some nid) job.hasSpec)) ∧
    (∀ e, submit_job = Except.error e →
      RemoteJobExecutor.submit submit_job job = (Except.error e, job) ∧
      (RemoteJobExecutor.submit submit_job job).2.state = JobState.NEW ∧
      (RemoteJobExecutor.submit submit_job job).2.native_id = none) := by
  obtain ⟨st, onid, hs⟩ := job
  dsimp at hnew hspec hnid
  subst hnew
  subst hspec
  subst hnid
  constructor
  · intro nid hok hne
    subst hok
    rfl
  · intro e herr
    subst herr
    exact ⟨rfl, rfl, rfl⟩

/-- C5 witness: a concrete successful submit and a concrete failed submit on
a fresh NEW handle with a specification. -/
theorem c5_submit_transitions_witness :
    RemoteJobExecutor.submit (Except.ok "12345") (Job.mk JobState.NEW none true)
      = (Except.ok (), Job.mk JobState.QUEUED (some "12345") true) ∧
    RemoteJobExecutor.submit (Except.error "connection refused")
        (Job.mk JobState.NEW none true)
      = (Except.error "connection refused", Job.mk JobState.NEW none true) := by
  constructor
  · exact (c5_submit_transitions (Except.ok "12345") (Job.mk JobState.NEW none true)
      rfl rfl rfl).1 "12345" rfl (by decide)
  · exact ((c5_submit_transitions (Except.error "connection refused")
      (Job.mk JobState.NEW none true) rfl rfl rfl).2 "connection refused" rfl).1

/-- C6: cancel on a handle without a native id fails with the precondition
error, invokes the driver cancel operation zero times and leaves the handle
untouched; cancel on a handle with a (non-empty) native id delegates to the
driver (exactly one recorded call, result returned unchanged) and never
mutates the handle, in particular its canonical state field. -/
theorem c6_cancel_precondition (cancel_job : String → Except String Unit)
    (job : Job) :
    (job.native_id = none →
      RemoteJobExecutor.cancel cancel_job job
        = (Except.error "Cannot cancel a job without a native ID.", job, [])) ∧
    (∀ nid, job.native_id = some nid → nid ≠ "" →
      RemoteJobExecutor.cancel cancel_job job = (cancel_job nid, job, [nid])) := by
  constructor
  · intro h
    unfold RemoteJobExecutor.cancel
    rw [h]
  · intro nid h hne
    unfold RemoteJobExecutor.cancel
    rw [h]
    simp [hne]

/-- C6 witness: cancel on a fresh handle fails with zero driver calls; cancel
on a submitted handle delegates with one driver call and an unchanged
handle. -/
theorem c6_cancel_precondition_witness :
    RemoteJobExecutor.cancel (fun _ => Except.ok ())
        (Job.mk JobState.NEW none true)
      = (Except.error "Cannot cancel a job without a native ID.",
          Job.mk JobState.NEW none true, []) ∧
    RemoteJobExecutor.cancel (fun _ => Except.ok ())
        (Job.mk JobState.QUEUED (some "42") true)
      = (Except.ok (), Job.mk JobState.QUEUED (some "42") true, ["42"]) := by
  constructor
  · exact (c6_cancel_precondition (fun _ => Except.ok ())
      (Job.mk JobState.NEW none true)).1 rfl
  · exact (c6_cancel_precondition (fun _ => Except.ok ())
      (Job.mk JobState.QUEUED (some "42") true)).2 "42" rfl (by decide)

/-- C7 counterexample: the claim says a second attach after a successful
first attach always fails with a precondition error. When the immediate
status fetch of the first attach resolves to NEW (as happens for an unmapped
NERSC token or the slurm CONFIGURING state), the handle is left in NEW, so a
second attach on the same handle also passes the NEW-state check and
succeeds. -/
theorem c7_counterexample :
    (RemoteJobExecutor.attach (fun _ => Except.ok (JobStatus.mk JobState.NEW))
        (Job.mk JobState.NEW none true) "77").1 = Except.ok () ∧
    (RemoteJobExecutor.attach (fun _ => Except.ok (JobStatus.mk JobState.NEW))
        (RemoteJobExecutor.attach
          (fun _ => Except.ok (JobStatus.mk JobState.NEW))
          (Job.mk JobState.NEW none true) "77").2.1 "77").1
      = Except.ok () := ⟨rfl, rfl⟩

/-- C7 amended: attach on a handle not in NEW fails with the precondition
error before any driver call and before any mutation; after a successful
attach whose status fetch resolved to a state other than NEW, the handle has
left NEW and any second attach fails with the precondition error without
mutating the handle; if the fetch resolved to NEW, the attach succeeds but
the handle remains in NEW (so a second attach passes the precondition
check). -/
theorem c7_attach_precondition
    (get_job_status : String → Except String JobStatus) (job : Job)
    (nid : String) :
    (job.state ≠ JobState.NEW →
      RemoteJobExecutor.attach get_job_status job nid
        = (Except.error "Job must be in NEW state to be attached.", job, [])) ∧
    (∀ st, job.state = JobState.NEW →
      get_job_status nid = Except.ok (JobStatus.mk st) → st ≠ JobState.NEW →
      (RemoteJobExecutor.attach get_job_status job nid).1 = Except.ok () ∧
      (RemoteJobExecutor.attach get_job_status job nid).2.1.state = st ∧
      (∀ g2 nid2,
        RemoteJobExecutor.attach g2
            (RemoteJobExecutor.attach get_job_status job nid).2.1 nid2
          = (Except.error "Job must be in NEW state to be attached.",
             (RemoteJobExecutor.attach get_job_status job nid).2.1, []))) ∧
    (job.state = JobState.NEW →
      get_job_status nid = Except.ok (JobStatus.mk JobState.NEW) →
      (RemoteJobExecutor.attach get_job_status job nid).1 = Except.ok () ∧
      (RemoteJobExecutor.attach get_job_status job nid).2.1.state
        = JobState.NEW) := by
  refine ⟨?_, ?_, ?_⟩
  · intro h
    simp [RemoteJobExecutor.attach, h]
  · intro st h1 h2 h3
    obtain ⟨jst, onid, hs⟩ := job
    dsimp at h1
    subst h1
    refine ⟨?_, ?_, ?_⟩
    · simp [RemoteJobExecutor.attach, h2]
    · simp [RemoteJobExecutor.attach, h2, set_job_status, JobState.final]
    · intro g2 nid2
      simp [RemoteJobExecutor.attach, h2, set_job_status, JobState.final, h3]
  · intro h1 h2
    obtain ⟨jst, onid, hs⟩ := job
    dsimp at h1
    subst h1
    constructor
    · simp [RemoteJobExecutor.attach, h2]
    · simp [RemoteJobExecutor.attach, h2, set_job_status, JobState.final]

/-- C7 witness: a first attach resolving to QUEUED succeeds, and the second
attach on the resulting handle fails with the precondition error. -/
theorem c7_attach_precondition_witness :
    (RemoteJobExecutor.attach (fun _ => Except.ok (JobStatus.mk JobState.QUEUED))
        (Job.mk JobState.NEW none true) "9").1 = Except.ok () ∧
    RemoteJobExecutor.attach (fun _ => Except.ok (JobStatus.mk JobState.QUEUED))
        (RemoteJobExecutor.attach
          (fun _ => Except.ok (JobStatus.mk JobState.QUEUED))
          (Job.mk JobState.NEW none true) "9").2.1 "10"
      = (Except.error "Job must be in NEW state to be attached.",
         (RemoteJobExecutor.attach
           (fun _ => Except.ok (JobStatus.mk JobState.QUEUED))
           (Job.mk JobState.NEW none true) "9").2.1, []) := by
  have h := (c7_attach_precondition
      (fun _ => Except.ok (JobStatus.mk JobState.QUEUED))
      (Job.mk JobState.NEW none true) "9").2.1 JobState.QUEUED rfl rfl
      (by decide)
  exact ⟨h.1, h.2.2 (fun _ => Except.ok (JobStatus.mk JobState.QUEUED)) "10"⟩

/-- C8: a status refresh on a handle with no native id returns normally (the
return type has no error case, matching the method, which never raises), with
zero driver get-status calls and the handle unmodified. -/
theorem c8_refresh_without_id_noop
    (get_job_status : String → Except String JobStatus) (job : Job)
    (h : job.native_id = none) :
    RemoteJobExecutor.update_job_status get_job_status job = (job, []) := by
  unfold RemoteJobExecutor.update_job_status
  rw [h]

/-- C8 witness: a refresh on a fresh handle with a driver that would raise is
still a no-op with zero driver calls. -/
theorem c8_refresh_without_id_noop_witness :
    RemoteJobExecutor.update_job_status (fun _ => Except.error "boom")
        (Job.mk JobState.NEW none true)
      = (Job.mk JobState.NEW none true, []) :=
  c8_refresh_without_id_noop (fun _ => Except.error "boom")
    (Job.mk JobState.NEW none true) rfl

/-- C9: a status refresh on a handle with a native id whose driver get-status
call raises returns normally (the exception is logged as a warning, not
propagated) and leaves the handle, in particular its canonical state and its
native id, unchanged; the driver was invoked once. -/
theorem c9_refresh_swallows_driver_error
    (get_job_status : String → Except String JobStatus) (job : Job)
    (nid e : String) (hid : job.native_id = some nid) (hne : nid ≠ "")
    (herr : get_job_status nid = Except.error e) :
    RemoteJobExecutor.update_job_status get_job_status job = (job, [nid]) := by
  unfold RemoteJobExecutor.update_job_status
  rw [hid]
  simp [hne, herr]

/-- C9 witness: a refresh on an ACTIVE submitted handle whose driver call
fails leaves the handle exactly as it was. -/
theorem c9_refresh_swallows_driver_error_witness :
    RemoteJobExecutor.update_job_status (fun _ => Except.error "timeout")
        (Job.mk JobState.ACTIVE (some "5") true)
      = (Job.mk JobState.ACTIVE (some "5") true, ["5"]) :=
  c9_refresh_swallows_driver_error (fun _ => Except.error "timeout")
    (Job.mk JobState.ACTIVE (some "5") true) "5" "timeout" rfl (by decide) rfl

/-- C10: attach on a NEW handle whose immediate status fetch raises
propagates the error, but the native id field has already been overwritten
with the supplied id, while the state field remains NEW; a subsequent attach
on that handle therefore passes the NEW-state precondition check and
proceeds to overwrite the native id again. -/
theorem c10_attach_not_atomic
    (get_job_status : String → Except String JobStatus) (job : Job)
    (nid e : String) (hnew : job.state = JobState.NEW)
    (herr : get_job_status nid = Except.error e) :
    RemoteJobExecutor.attach get_job_status job nid
      = (Except.error e, { job with native_id := some nid }, [nid]) ∧
    ({ job with native_id := some nid }).state = JobState.NEW ∧
    (∀ g2 nid2,
      (RemoteJobExecutor.attach g2 { job with native_id := some nid }
          nid2).2.1.native_id = some nid2) := by
  obtain ⟨jst, onid, hs⟩ := job
  dsimp at hnew
  subst hnew
  refine ⟨?_, rfl, ?_⟩
  · simp [RemoteJobExecutor.attach, herr]
  · intro g2 nid2
    cases hg : g2 nid2 with
    | error e2 => simp [RemoteJobExecutor.attach, hg]
    | ok status => simp [RemoteJobExecutor.attach, hg, set_job_status, JobState.final]

/-- C10 witness: a failed attach leaves the id written and the state NEW, and
a subsequent attach overwrites the id, having passed the precondition. -/
theorem c10_attach_not_atomic_witness :
    RemoteJobExecutor.attach (fun _ => Except.error "boom")
        (Job.mk JobState.NEW none true) "77"
      = (Except.error "boom", Job.mk JobState.NEW (some "77") true, ["77"]) ∧
    (RemoteJobExecutor.attach (fun _ => Except.ok (JobStatus.mk JobState.QUEUED))
        (Job.mk JobState.NEW (some "77") true) "88").2.1.native_id
      = some "88" := by
  have h := c10_attach_not_atomic (fun _ => Except.error "boom")
    (Job.mk JobState.NEW none true) "77" "boom" rfl rfl
  exact ⟨h.1, h.2.2 (fun _ => Except.ok (JobStatus.mk JobState.QUEUED)) "88"⟩

end Psij
